import Mathlib

/-!
Verification of the tag-resolution and asset-staging pipeline (`tasks/agent.py`)

Shallow embedding of the `build` and `refresh_assets` tasks of
`tasks/agent.py`.  Pure data (tag lists, the core-check lists) is embedded
directly; the filesystem side effects of staging are embedded as an explicit
list of staging operations together with a small-step interpreter over an
abstract filesystem state, so that the contents of the output root after a
run are a computable function of the inputs.

The module `tasks/build_tags.py` (the constants `LINUX_ONLY_TAGS`,
`REDHAT_AND_DEBIAN_ONLY_TAGS`, `REDHAT_AND_DEBIAN_DIST` and the functions
`get_build_tags`, `get_default_build_tags`) is imported by `tasks/agent.py`
but its source is not part of this snapshot; those pieces are modelled from
the specification and are marked as such in their doc comments.
-/

/-- A feature tag (build tag): an opaque case-sensitive string identifier. -/
abbrev Tag := String

/-- Constant `DEFAULT_BUILD_TAGS` from `tasks/agent.py` (lines 25-45): the default
include list used when the caller passes no `--build-include`. -/
def DEFAULT_BUILD_TAGS : List Tag :=
  ["apm", "consul", "containerd", "python", "cri", "docker", "ec2", "etcd",
   "gce", "jmx", "kubeapiserver", "kubelet", "log", "netcgo", "systemd",
   "process", "zk", "zlib", "secrets"]

/-- Constant `AGENT_CORECHECKS` from `tasks/agent.py` (lines 47-63): the full
core-check list staged under `conf.d/` for a non-minimal build. -/
def AGENT_CORECHECKS : List String :=
  ["containerd", "cpu", "cri", "docker", "file_handle", "go_expvar", "io",
   "jmx", "kubernetes_apiserver", "load", "memory", "ntp", "systemd",
   "uptime", "winproc"]

/-- Constant `PUPPY_CORECHECKS` from `tasks/agent.py` (lines 65-74): the reduced
core-check list staged under `conf.d/` for a minimal-profile ("puppy") build. -/
def PUPPY_CORECHECKS : List String :=
  ["cpu", "disk", "io", "load", "memory", "network", "ntp", "uptime"]

/-- Boolean prefix test on strings, modelling Python's `str.startswith`
(defined over the underlying character lists so it is kernel-computable). -/
def strStartsWith (s pre : String) : Bool :=
  pre.data.isPrefixOf s.data

/-- The host platform, as `tasks/agent.py` observes it: the value of
`sys.platform` and the (already lower-cased) first component of
`platform.linux_distribution()`, which is the empty string when no
distribution can be detected (e.g. on non-Linux hosts). -/
structure Platform where
  sysPlatform : String
  distname : String
deriving DecidableEq, Repr

/-- Test `sys.platform.startswith('linux')` (`tasks/agent.py` lines 94 and 183). -/
def Platform.isLinux (p : Platform) : Bool :=
  strStartsWith p.sysPlatform "linux"

/-- One asset subtree destination inside (or next to) the staging output
root, one constructor per distinct destination `refresh_assets` writes:
`checks/`, `utils/`, `config.py`, the `dd-agent` launcher stub,
`system-probe.yaml`, `datadog.yaml`, `conf.d/<name>.d/`,
`conf.d/apm.yaml.default`, the `pkg/status/dist` overlay, `views/`, and the
`dev/dist` development overlay. -/
inductive Asset where
  | checks
  | utils
  | configPy
  | ddAgentStub
  | systemProbeYaml
  | datadogYaml
  | confDCheck (name : String)
  | apmYamlDefault
  | statusDist
  | views
  | devDist
deriving DecidableEq, Repr

/-- A single staging side effect of `refresh_assets`: wiping and recreating
the `dist` output root (`shutil.rmtree` + `os.mkdir`, lines 167-170),
copying one asset subtree into the output root (`copy_tree`/`shutil.copy`),
or relocating the `dd-agent` stub out of the output root into the binary
directory (`shutil.move`, line 180). -/
inductive StageOp where
  | wipe
  | copy (a : Asset)
  | moveDdAgentToBin
deriving DecidableEq, Repr

/-- Abstract state of the filesystem locations staging touches: the set of
asset subtrees currently present under the `dist` output root, and whether
the relocated `dd-agent` stub is present in the binary directory (one level
above the output root). -/
structure FsState where
  dist : List Asset
  binDdAgent : Bool
deriving DecidableEq, Repr

/-- Effect of one staging operation on the filesystem state. -/
def applyOp (s : FsState) : StageOp → FsState
  | .wipe => { s with dist := [] }
  | .copy a => { s with dist := if s.dist.contains a then s.dist else s.dist ++ [a] }
  | .moveDdAgentToBin =>
      { dist := s.dist.filter (fun a => !(a == Asset.ddAgentStub)), binDdAgent := true }

/-- Run a list of staging operations in order. -/
def runOps (s : FsState) (ops : List StageOp) : FsState :=
  ops.foldl applyOp s

/-- Function `refresh_assets` from `tasks/agent.py` (lines 158-196), as the ordered
list of staging side effects it performs for the given inputs: wipe and
recreate the output root; if `"python"` is in the build tags copy `checks/`,
`utils/` and `config.py`; if not a puppy (minimal) build copy the `dd-agent`
stub and then move it up into the binary directory; on Linux copy
`system-probe.yaml`; copy `datadog.yaml`; copy one `conf.d/<check>.d/`
subtree per entry of the active core-check list (`AGENT_CORECHECKS`, or
`PUPPY_CORECHECKS` for a puppy build); if `"apm"` is in the build tags copy
`conf.d/apm.yaml.default`; copy the `pkg/status/dist` overlay and `views/`;
and, in development mode, copy the `dev/dist` overlay last. -/
def refresh_assets (build_tags : List Tag) (development puppy : Bool) (p : Platform) :
    List StageOp :=
  [StageOp.wipe]
  ++ (if build_tags.contains "python" then
        [StageOp.copy .checks, StageOp.copy .utils, StageOp.copy .configPy]
      else [])
  ++ (if puppy then [] else [StageOp.copy .ddAgentStub, StageOp.moveDdAgentToBin])
  ++ (if p.isLinux then [StageOp.copy .systemProbeYaml] else [])
  ++ [StageOp.copy .datadogYaml]
  ++ ((if puppy then PUPPY_CORECHECKS else AGENT_CORECHECKS).map
        (fun c => StageOp.copy (.confDCheck c)))
  ++ (if build_tags.contains "apm" then [StageOp.copy .apmYamlDefault] else [])
  ++ [StageOp.copy .statusDist, StageOp.copy .views]
  ++ (if development then [StageOp.copy .devDist] else [])

/-- The contents of the staging output root after a `refresh_assets` run, as
a function of the five conditions the code branches on (whether `"python"`
and `"apm"` are in the build tags, the development flag, the puppy flag, and
whether the host is Linux).  The `dd-agent` stub does not appear: it is
copied in and then moved out again. -/
def stagedModel (python apm development puppy linux : Bool) : List Asset :=
  (if python then [Asset.checks, Asset.utils, Asset.configPy] else [])
  ++ (if linux then [Asset.systemProbeYaml] else [])
  ++ [Asset.datadogYaml]
  ++ ((if puppy then PUPPY_CORECHECKS else AGENT_CORECHECKS).map Asset.confDCheck)
  ++ (if apm then [Asset.apmYamlDefault] else [])
  ++ [Asset.statusDist, Asset.views]
  ++ (if development then [Asset.devDist] else [])

/-- The output-root contents after running a list of staging operations,
tracked on their own (the `dist` component of `runOps`). -/
def distAfter (ops : List StageOp) (d : List Asset) : List Asset :=
  match ops with
  | [] => d
  | .wipe :: rest => distAfter rest []
  | .copy a :: rest => distAfter rest (if d.contains a then d else d ++ [a])
  | .moveDdAgentToBin :: rest => distAfter rest (d.filter (fun a => !(a == Asset.ddAgentStub)))

/-- The error raised when an include or exclude list names a tag unknown to
the tag catalog (spec section 7). -/
inductive ConfigurationError where
  | unknownTag
deriving DecidableEq, Repr

/-- Equality of resolution results is decidable (used to evaluate concrete
runs in the witnesses below). -/
instance : DecidableEq (Except ConfigurationError (List Tag)) :=
  fun a b =>
    match a, b with
    | .ok x, .ok y =>
        if h : x = y then isTrue (congrArg Except.ok h)
        else isFalse (fun hc => h (Except.ok.inj hc))
    | .error x, .error y =>
        if h : x = y then isTrue (congrArg Except.error h)
        else isFalse (fun hc => h (Except.error.inj hc))
    | .ok _, .error _ => isFalse (fun hc => Except.noConfusion hc)
    | .error _, .ok _ => isFalse (fun hc => Except.noConfusion hc)

/-- Modelled from the spec: the constants of `tasks/build_tags.py`
(`LINUX_ONLY_TAGS`, `REDHAT_AND_DEBIAN_ONLY_TAGS`, `REDHAT_AND_DEBIAN_DIST`)
and the tag catalog behind them are imported by `tasks/agent.py` (line 18)
but their defining file is not part of this snapshot.  Following spec
sections 4.1-4.2 they are kept abstract here: the set of all known tags, the
exclusion group of tags valid only on Linux, the exclusion group of tags
valid only on Red Hat / Debian distribution families, and the whitelist of
those distribution names. -/
structure BuildTagsModule where
  allTags : List Tag
  linuxOnlyTags : List Tag
  redhatDebianOnlyTags : List Tag
  redhatDebianDist : List String
deriving DecidableEq, Repr

/-- The set of tags force-excluded on the given host (spec section 4.2,
`PlatformConstraintResolver`): the Linux-only group when the host is not
Linux, plus the distribution-restricted group when the detected distribution
name is not in the whitelist (an empty / undetected name is simply not in
the whitelist, never an error). -/
def platformExclusions (m : BuildTagsModule) (p : Platform) : List Tag :=
  (if p.isLinux then [] else m.linuxOnlyTags)
  ++ (if m.redhatDebianDist.contains p.distname then [] else m.redhatDebianOnlyTags)

/-- Append to `acc` every element of `ts` not already present, in order:
the `for ex in TAGS: if ex not in build_exclude: build_exclude.append(ex)`
loops of `tasks/agent.py` (lines 95-97 and 102-104). -/
def appendMissing (acc ts : List Tag) : List Tag :=
  ts.foldl (fun acc t => if acc.contains t then acc else acc ++ [t]) acc

/-- The exclude list after `build` has added the platform constraints to the
user's exclude list (`tasks/agent.py` lines 94-104): on a non-Linux host
every Linux-only tag is appended if missing, and when the detected
distribution is not in the Red Hat / Debian whitelist every tag of that
group is appended if missing. -/
def computedBuildExclude (m : BuildTagsModule) (p : Platform) (exc : List Tag) : List Tag :=
  let e1 := if p.isLinux then exc else appendMissing exc m.linuxOnlyTags
  if m.redhatDebianDist.contains p.distname then e1 else appendMissing e1 m.redhatDebianOnlyTags

/-- Modelled from the spec: `TagCatalog.MinimalTagSet()` lives behind
`get_default_build_tags` in `tasks/build_tags.py`, which is not part of this
snapshot.  Spec Scenario B gives its value:
`{cpu, disk, io, load, memory, network, ntp, uptime}`. -/
def MinimalTagSet : List Tag :=
  ["cpu", "disk", "io", "load", "memory", "network", "ntp", "uptime"]

/-- Modelled from the spec: `get_default_build_tags(puppy=True)` from
`tasks/build_tags.py` is not part of this snapshot.  Spec section 4.3
step 1 and step 4: with the minimal profile the working set is
`TagCatalog.MinimalTagSet()` and the platform exclusions of section 4.2 are
removed from it. -/
def get_default_build_tags_puppy (m : BuildTagsModule) (p : Platform) : List Tag :=
  MinimalTagSet.filter (fun t => !((platformExclusions m p).contains t))

/-- Deduplication worker: keeps each element not seen before, accumulating
the seen ones. -/
def dedupFirstAux (seen : List Tag) : List Tag → List Tag
  | [] => []
  | t :: ts =>
      if seen.contains t then dedupFirstAux seen ts
      else t :: dedupFirstAux (seen ++ [t]) ts

/-- Deduplicate a tag list keeping the first occurrence of each tag
(spec section 4.3 step 5: insertion order of the working set's source). -/
def dedupFirst (l : List Tag) : List Tag :=
  dedupFirstAux [] l

/-- Modelled from the spec: `get_build_tags(build_include, build_exclude)`
from `tasks/build_tags.py` is not part of this snapshot.  Spec section 4.3:
it fails with `ConfigurationError` if the include or exclude list contains a
tag unknown to the tag catalog; otherwise the working set is the include
list, every tag of the exclude list is removed from it, and the result is
returned deduplicated in insertion order. -/
def get_build_tags (m : BuildTagsModule) (inc exc : List Tag) :
    Except ConfigurationError (List Tag) :=
  if (inc ++ exc).all (fun t => m.allTags.contains t) then
    .ok (dedupFirst (inc.filter (fun t => !(exc.contains t))))
  else
    .error .unknownTag

/-- The tag-resolution part of `build` (`tasks/agent.py` lines 88-128): the
include list defaults to `DEFAULT_BUILD_TAGS` and the exclude list to `[]`
when not given (line 88-89); the platform constraints are appended to the
exclude list (lines 94-104); then either the puppy default tag set is taken,
ignoring both user lists (lines 124-126), or `get_build_tags` combines them
(line 128). -/
def resolveTags (m : BuildTagsModule) (p : Platform)
    (buildInc buildExc : Option (List Tag)) (puppy : Bool) :
    Except ConfigurationError (List Tag) :=
  let inc := buildInc.getD DEFAULT_BUILD_TAGS
  let exc := computedBuildExclude m p (buildExc.getD [])
  if puppy then
    .ok (get_default_build_tags_puppy m p)
  else
    get_build_tags m inc exc

/-- One externally visible effect of a `build` run: the Windows resource
generation commands (`windmc`/`windres`, lines 106-122), the `go build`
invocation (line 142), the `go generate` invocation (line 153), or one
staging operation performed by `refresh_assets` (line 156). -/
inductive Effect where
  | winResourceGen
  | goBuild
  | goGenerate
  | stage (op : StageOp)
deriving DecidableEq, Repr

/-- The staging operations among a list of build effects. -/
def stageOps (effs : List Effect) : List StageOp :=
  effs.filterMap (fun e => match e with | .stage op => some op | _ => none)

/-- Function `build` from `tasks/agent.py` (lines 76-156): resolves the tag set and
returns it together with the ordered list of effects performed.  On win32
the resource generation commands run before tag resolution; if resolution
fails nothing further happens; otherwise `go build` and `go generate` run,
and unless `skip_assets` is set `refresh_assets` stages the output root with
the resolved tags and the same `development` and `puppy` flags. -/
def build (m : BuildTagsModule) (p : Platform)
    (buildInc buildExc : Option (List Tag))
    (puppy development skip_assets : Bool) :
    Except ConfigurationError (List Tag) × List Effect :=
  let pre : List Effect := if p.sysPlatform == "win32" then [.winResourceGen] else []
  match resolveTags m p buildInc buildExc puppy with
  | .error e => (.error e, pre)
  | .ok build_tags =>
      (.ok build_tags,
        pre ++ [Effect.goBuild, Effect.goGenerate]
          ++ (if skip_assets then []
              else (refresh_assets build_tags development puppy p).map .stage))

/-- The trigger of a manifest entry as the spec's section 4.4 defines it:
`"always"`, `"minimal-only"`, or a specific feature tag. -/
inductive SpecTrigger where
  | always
  | minimalOnly
  | tag (t : Tag)
deriving DecidableEq, Repr

/-- Spec section 4.4 selection rule for a trigger: `always` is always
selected, `minimalOnly` iff the minimal profile is requested, a feature tag
iff it is a member of the resolved tag set. -/
def specTriggerOn (ts : List Tag) (minimal : Bool) : SpecTrigger → Bool
  | .always => true
  | .minimalOnly => minimal
  | .tag t => ts.contains t

/-- The outputs an asset manifest with spec-section-4.4 triggers declares
for the given tag set and minimal-profile flag. -/
def specSelected (M : List (SpecTrigger × Asset)) (ts : List Tag) (minimal : Bool) :
    List Asset :=
  (M.filter (fun e => specTriggerOn ts minimal e.1)).map Prod.snd

/-- The trigger kinds actually needed to describe `refresh_assets`: besides
the spec's `always` / `minimal-only` / feature-tag triggers, the code also
conditions entries on the profile being *non*-minimal (`fullOnly`), on the
host being Linux (`linuxOnly`), and on the development flag (`devOnly`). -/
inductive Trigger where
  | always
  | minimalOnly
  | fullOnly
  | tag (t : Tag)
  | linuxOnly
  | devOnly
deriving DecidableEq, Repr

/-- Selection rule for the extended trigger kinds. -/
def triggerOn (ts : List Tag) (minimal development linux : Bool) : Trigger → Bool
  | .always => true
  | .minimalOnly => minimal
  | .fullOnly => !minimal
  | .tag t => ts.contains t
  | .linuxOnly => linux
  | .devOnly => development

/-- The outputs a manifest with extended triggers declares for the given tag
set, minimal-profile flag, development flag and host kind. -/
def selectedOutputs (M : List (Trigger × Asset)) (ts : List Tag)
    (minimal development linux : Bool) : List Asset :=
  (M.filter (fun e => triggerOn ts minimal development linux e.1)).map Prod.snd

/-- The declarative asset manifest underlying `refresh_assets`, read off the
source: `checks/`, `utils/` and `config.py` are triggered by the `"python"`
tag; `system-probe.yaml` by the host being Linux; `datadog.yaml`
unconditionally; one `conf.d/<check>.d/` entry per core check, triggered
always when the check is in both core-check lists, only on full builds when
it is only in `AGENT_CORECHECKS`, and only on minimal builds when it is only
in `PUPPY_CORECHECKS`; `conf.d/apm.yaml.default` by the `"apm"` tag; the
`pkg/status/dist` overlay and `views/` unconditionally; and the `dev/dist`
overlay by the development flag.  (The `dd-agent` stub is absent: it is
relocated out of the output root and never part of its final contents.) -/
def assetManifest : List (Trigger × Asset) :=
  [(.tag "python", Asset.checks), (.tag "python", Asset.utils),
   (.tag "python", Asset.configPy),
   (.linuxOnly, Asset.systemProbeYaml), (.always, Asset.datadogYaml)]
  ++ (AGENT_CORECHECKS.map (fun c =>
        ((if PUPPY_CORECHECKS.contains c then Trigger.always else Trigger.fullOnly),
         Asset.confDCheck c)))
  ++ ((PUPPY_CORECHECKS.filter (fun c => !(AGENT_CORECHECKS.contains c))).map
        (fun c => (Trigger.minimalOnly, Asset.confDCheck c)))
  ++ [(.tag "apm", Asset.apmYamlDefault), (.always, Asset.statusDist),
      (.always, Asset.views), (.devOnly, Asset.devDist)]

/-- Whether the `dd-agent` stub is in the binary directory after running a
list of staging operations (the `binDdAgent` component of `runOps`): only
the relocation step sets it. -/
def binAfter (ops : List StageOp) (b : Bool) : Bool :=
  match ops with
  | [] => b
  | .wipe :: rest => binAfter rest b
  | .copy _ :: rest => binAfter rest b
  | .moveDdAgentToBin :: rest => binAfter rest true

/-- The operation list of `refresh_assets` as a function of the five
conditions the code branches on; definitionally equal to `refresh_assets`
(see `refresh_assets_eq_opsModel`). -/
def opsModel (python apm development puppy linux : Bool) : List StageOp :=
  [StageOp.wipe]
  ++ (if python then
        [StageOp.copy .checks, StageOp.copy .utils, StageOp.copy .configPy]
      else [])
  ++ (if puppy then [] else [StageOp.copy .ddAgentStub, StageOp.moveDdAgentToBin])
  ++ (if linux then [StageOp.copy .systemProbeYaml] else [])
  ++ [StageOp.copy .datadogYaml]
  ++ ((if puppy then PUPPY_CORECHECKS else AGENT_CORECHECKS).map
        (fun c => StageOp.copy (.confDCheck c)))
  ++ (if apm then [StageOp.copy .apmYamlDefault] else [])
  ++ [StageOp.copy .statusDist, StageOp.copy .views]
  ++ (if development then [StageOp.copy .devDist] else [])

/-- The `conf.d/<check-name>.d/` subtrees among a list of staged asset
subtrees. -/
def checkSubtrees (d : List Asset) : List Asset :=
  d.filter (fun a => match a with | .confDCheck _ => true | _ => false)

/-- Concrete tag-catalog instance used only by the witnesses below: the
catalog knows exactly the default build tags, `systemd` and `netcgo` are
Linux-only, and no tag is distribution-restricted. -/
def demoModule : BuildTagsModule :=
  { allTags := DEFAULT_BUILD_TAGS
    linuxOnlyTags := ["systemd", "netcgo"]
    redhatDebianOnlyTags := []
    redhatDebianDist := ["debian", "redhat", "ubuntu", "centos"] }

/-- A Windows host (no Linux distribution detected). -/
def winPlatform : Platform := ⟨"win32", ""⟩

/-- A Linux host on a whitelisted distribution. -/
def linuxPlatform : Platform := ⟨"linux2", "ubuntu"⟩

theorem runOps_dist (ops : List StageOp) (s : FsState) :
    (runOps s ops).dist = distAfter ops s.dist := by
  induction ops generalizing s with
  | nil => rfl
  | cons op rest ih =>
      cases op <;> simp [runOps, distAfter, applyOp, List.foldl] <;>
        exact ih _

theorem stagedDist_eq (build_tags : List Tag) (development puppy : Bool) (p : Platform)
    (s : FsState) :
    (runOps s (refresh_assets build_tags development puppy p)).dist =
      stagedModel (build_tags.contains "python") (build_tags.contains "apm")
        development puppy p.isLinux := by
  rw [runOps_dist]
  cases hpy : build_tags.contains "python" <;>
    cases hap : build_tags.contains "apm" <;>
      cases development <;> cases puppy <;> cases hl : p.isLinux <;>
        simp only [refresh_assets, hpy, hap, hl, List.singleton_append,
          Bool.false_eq_true, if_false, if_true, distAfter] <;>
        decide

set_option maxHeartbeats 1000000 in
theorem selectedOutputs_assetManifest (bt : List Tag) (puppy development linux : Bool) :
    selectedOutputs assetManifest bt puppy development linux =
      (if bt.contains "python" then [Asset.checks, Asset.utils, Asset.configPy] else [])
      ++ (if linux then [Asset.systemProbeYaml] else [])
      ++ [Asset.datadogYaml]
      ++ (if puppy then
            [Asset.confDCheck "cpu", Asset.confDCheck "io", Asset.confDCheck "load",
             Asset.confDCheck "memory", Asset.confDCheck "ntp", Asset.confDCheck "uptime",
             Asset.confDCheck "disk", Asset.confDCheck "network"]
          else AGENT_CORECHECKS.map Asset.confDCheck)
      ++ (if bt.contains "apm" then [Asset.apmYamlDefault] else [])
      ++ [Asset.statusDist, Asset.views]
      ++ (if development then [Asset.devDist] else []) := by
  by_cases hpy : ("python" : Tag) ∈ bt <;>
    by_cases hap : ("apm" : Tag) ∈ bt <;>
      cases development <;> cases puppy <;> cases linux <;>
        simp [selectedOutputs, assetManifest, triggerOn, hpy, hap,
          AGENT_CORECHECKS, PUPPY_CORECHECKS]

/-- Claim C1 (counterexample): it is not the case that the contents of the
output root after `refresh_assets` are exactly the outputs of some manifest
whose triggers are only `"always"`, `"minimal-only"` and feature tags,
selected by the resolved tag set and the minimal-profile flag.  Any such
manifest determines the output from the tag set and the minimal flag alone,
but two runs with identical tag set and minimal flag that differ only in the
development flag produce different output-root contents (the `dev/dist`
overlay). -/
theorem refresh_assets_not_spec_manifest_exact :
    ¬ ∃ M : List (SpecTrigger × Asset),
        ∀ (build_tags : List Tag) (development puppy : Bool) (p : Platform)
          (s : FsState) (a : Asset),
          (a ∈ (runOps s (refresh_assets build_tags development puppy p)).dist ↔
            a ∈ specSelected M build_tags puppy) := by
  rintro ⟨M, h⟩
  have h₁ : Asset.devDist ∈ specSelected M [] false :=
    (h [] true false ⟨"linux2", ""⟩ ⟨[], false⟩ Asset.devDist).mp (by decide)
  have h₂ : Asset.devDist ∈
      (runOps ⟨[], false⟩ (refresh_assets [] false false ⟨"linux2", ""⟩)).dist :=
    (h [] false false ⟨"linux2", ""⟩ ⟨[], false⟩ Asset.devDist).mpr h₁
  revert h₂
  decide

/-- Claim C1 (amended): for every run of `refresh_assets`, the multiset of
asset subtrees present in the output root afterwards is exactly the union of
the outputs of the declarative manifest `assetManifest` whose trigger is
selected — `always`; `minimal-only` iff the minimal profile was requested;
`full-only` iff it was not; a feature tag present in the final tag set; the
Linux condition iff the host is Linux; the development condition iff the
development flag is set — no subtree more, no subtree fewer. -/
theorem refresh_assets_matches_assetManifest (build_tags : List Tag)
    (development puppy : Bool) (p : Platform) (s : FsState) :
    List.Perm (runOps s (refresh_assets build_tags development puppy p)).dist
      (selectedOutputs assetManifest build_tags puppy development p.isLinux) := by
  rw [stagedDist_eq, selectedOutputs_assetManifest]
  by_cases hpy : ("python" : Tag) ∈ build_tags <;>
    by_cases hap : ("apm" : Tag) ∈ build_tags <;>
      cases development <;> cases puppy <;> cases hl : p.isLinux <;>
        simp [stagedModel, hpy, hap, AGENT_CORECHECKS, PUPPY_CORECHECKS] <;>
          decide

theorem runOps_binDdAgent (ops : List StageOp) (s : FsState) :
    (runOps s ops).binDdAgent = binAfter ops s.binDdAgent := by
  induction ops generalizing s with
  | nil => rfl
  | cons op rest ih =>
      cases op <;> simp [runOps, binAfter, applyOp, List.foldl] <;>
        exact ih _

/-- Claim C5: every `refresh_assets` run begins by wiping the output root
(its first staging operation is the wipe-and-recreate step, before any
copy), and consequently the output-root contents after a run do not depend
on the previous state at all: re-running staging over the output of an
earlier run with a different (e.g. larger) tag set yields exactly the
contents of a fresh run, so no stale subtree justified only by a removed tag
survives. -/
theorem refresh_assets_wipe_before_populate
    (bt₁ bt₂ : List Tag) (dev₁ dev₂ puppy₁ puppy₂ : Bool) (p₁ p₂ : Platform)
    (s : FsState) :
    (refresh_assets bt₂ dev₂ puppy₂ p₂).head? = some StageOp.wipe ∧
      (runOps (runOps s (refresh_assets bt₁ dev₁ puppy₁ p₁))
          (refresh_assets bt₂ dev₂ puppy₂ p₂)).dist =
        (runOps ⟨[], false⟩ (refresh_assets bt₂ dev₂ puppy₂ p₂)).dist := by
  constructor
  · rfl
  · rw [stagedDist_eq, stagedDist_eq]

theorem refresh_assets_eq_opsModel (build_tags : List Tag)
    (development puppy : Bool) (p : Platform) :
    refresh_assets build_tags development puppy p =
      opsModel (build_tags.contains "python") (build_tags.contains "apm")
        development puppy p.isLinux := rfl

theorem binAfter_opsModel_full (python apm development linux b : Bool) :
    binAfter (opsModel python apm development false linux) b = true := by
  cases python <;> cases apm <;> cases development <;> cases linux <;> cases b <;> decide

theorem binAfter_opsModel_puppy (python apm development linux b : Bool) :
    binAfter (opsModel python apm development true linux) b = b := by
  cases python <;> cases apm <;> cases development <;> cases linux <;> cases b <;> decide

theorem ddAgentStub_not_mem_stagedModel (python apm development puppy linux : Bool) :
    Asset.ddAgentStub ∉ stagedModel python apm development puppy linux := by
  cases python <;> cases apm <;> cases development <;> cases puppy <;> cases linux <;> decide

theorem moveOp_mem_opsModel_full (python apm development linux : Bool) :
    StageOp.moveDdAgentToBin ∈ opsModel python apm development false linux ∧
      StageOp.copy Asset.ddAgentStub ∈ opsModel python apm development false linux := by
  cases python <;> cases apm <;> cases development <;> cases linux <;> decide

theorem ddAgentOps_not_mem_opsModel_puppy (python apm development linux : Bool) :
    StageOp.moveDdAgentToBin ∉ opsModel python apm development true linux ∧
      StageOp.copy Asset.ddAgentStub ∉ opsModel python apm development true linux := by
  cases python <;> cases apm <;> cases development <;> cases linux <;> decide

/-- Claim C7: after a non-minimal `refresh_assets` run the `dd-agent` launcher
stub sits in the binary directory, one level above the output root, and is
no longer present inside the output root itself; the operation sequence
contains the distinct relocation (move) step in addition to the copy that
first placed the stub inside the output root. -/
theorem ddAgentStub_relocated (build_tags : List Tag) (development : Bool)
    (p : Platform) (s : FsState) :
    (runOps s (refresh_assets build_tags development false p)).binDdAgent = true ∧
      Asset.ddAgentStub ∉ (runOps s (refresh_assets build_tags development false p)).dist ∧
      StageOp.moveDdAgentToBin ∈ refresh_assets build_tags development false p ∧
      StageOp.copy Asset.ddAgentStub ∈ refresh_assets build_tags development false p := by
  rw [runOps_dist, runOps_binDdAgent, refresh_assets_eq_opsModel]
  refine ⟨binAfter_opsModel_full _ _ _ _ _, ?_,
    (moveOp_mem_opsModel_full _ _ _ _).1, (moveOp_mem_opsModel_full _ _ _ _).2⟩
  have h := stagedDist_eq build_tags development false p s
  rw [runOps_dist, refresh_assets_eq_opsModel] at h
  rw [h]
  exact ddAgentStub_not_mem_stagedModel _ _ _ _ _

/-- Claim C9: a minimal-profile (`puppy`) `refresh_assets` run stages no
launcher stub at all: no operation of the run copies or moves the stub, the
binary directory's stub state is left unchanged, and the stub is absent from
the output root afterwards — a condition on the launcher stub that the
spec's output-layout list does not state. -/
theorem puppy_stages_no_ddAgentStub (build_tags : List Tag) (development : Bool)
    (p : Platform) (s : FsState) :
    (runOps s (refresh_assets build_tags development true p)).binDdAgent = s.binDdAgent ∧
      Asset.ddAgentStub ∉ (runOps s (refresh_assets build_tags development true p)).dist ∧
      StageOp.moveDdAgentToBin ∉ refresh_assets build_tags development true p ∧
      StageOp.copy Asset.ddAgentStub ∉ refresh_assets build_tags development true p := by
  have hd : Asset.ddAgentStub ∉
      (runOps s (refresh_assets build_tags development true p)).dist := by
    rw [stagedDist_eq]
    exact ddAgentStub_not_mem_stagedModel _ _ _ _ _
  rw [runOps_binDdAgent, refresh_assets_eq_opsModel]
  exact ⟨binAfter_opsModel_puppy _ _ _ _ _, hd,
    (ddAgentOps_not_mem_opsModel_puppy _ _ _ _).1,
    (ddAgentOps_not_mem_opsModel_puppy _ _ _ _).2⟩

theorem checkSubtrees_stagedModel (python apm development puppy linux : Bool) :
    checkSubtrees (stagedModel python apm development puppy linux) =
      (if puppy then PUPPY_CORECHECKS else AGENT_CORECHECKS).map Asset.confDCheck := by
  cases python <;> cases apm <;> cases development <;> cases puppy <;> cases linux <;> decide

/-- Claim C10: the set of `conf.d/<check-name>.d/` subtrees staged by
`refresh_assets` depends only on the minimal-profile (`puppy`) flag, never
on the build-tag set (nor on the development flag, the host platform, or the
prior filesystem state): any two runs with the same `puppy` value stage
exactly the same check subtrees, and in particular `conf.d/docker.d/` is
staged by every non-minimal run even when the `"docker"` tag is absent from
the build tags. -/
theorem checkSubtrees_depend_only_on_puppy
    (bt₁ bt₂ : List Tag) (dev₁ dev₂ : Bool) (puppy : Bool) (p₁ p₂ : Platform)
    (s₁ s₂ : FsState) :
    checkSubtrees (runOps s₁ (refresh_assets bt₁ dev₁ puppy p₁)).dist =
        checkSubtrees (runOps s₂ (refresh_assets bt₂ dev₂ puppy p₂)).dist ∧
      Asset.confDCheck "docker" ∈
        (runOps s₁ (refresh_assets bt₁ dev₁ false p₁)).dist := by
  constructor
  · rw [stagedDist_eq, stagedDist_eq, checkSubtrees_stagedModel, checkSubtrees_stagedModel]
  · rw [stagedDist_eq]
    cases hpy : bt₁.contains "python" <;>
      cases hap : bt₁.contains "apm" <;>
        cases dev₁ <;> cases hl : p₁.isLinux <;> decide

/-- Claim C8: with the skip-assets flag set, `build` performs no staging
operation at all, whatever the tag set and the other inputs: its effect list
contains no staging operation, so the output root (and the rest of the
abstract filesystem state) is left exactly as it was — neither wiped nor
recreated nor copied into. -/
theorem build_skip_assets_leaves_output_untouched (m : BuildTagsModule) (p : Platform)
    (buildInc buildExc : Option (List Tag)) (puppy development : Bool) (s : FsState) :
    stageOps (build m p buildInc buildExc puppy development true).2 = [] ∧
      runOps s (stageOps (build m p buildInc buildExc puppy development true).2) = s := by
  have h : stageOps (build m p buildInc buildExc puppy development true).2 = [] := by
    cases hr : resolveTags m p buildInc buildExc puppy <;>
      by_cases hw : p.sysPlatform == "win32" <;>
        simp [build, hr, hw, stageOps]
  exact ⟨h, by rw [h]; rfl⟩

theorem mem_appendMissing (ts : List Tag) (acc : List Tag) (a : Tag) :
    a ∈ appendMissing acc ts ↔ a ∈ acc ∨ a ∈ ts := by
  induction ts generalizing acc with
  | nil => simp [appendMissing]
  | cons t ts ih =>
      have hstep : appendMissing acc (t :: ts) =
          appendMissing (if acc.contains t then acc else acc ++ [t]) ts := rfl
      rw [hstep, ih]
      by_cases hc : t ∈ acc
      · have hif : (if acc.contains t then acc else acc ++ [t]) = acc := by simp [hc]
        rw [hif]
        constructor
        · tauto
        · rintro (h | h)
          · tauto
          · rcases List.mem_cons.mp h with h | h
            · subst h; tauto
            · tauto
      · have hif : (if acc.contains t then acc else acc ++ [t]) = acc ++ [t] := by
          simp [hc]
        rw [hif]
        simp only [List.mem_append, List.mem_singleton, List.mem_cons]
        tauto

theorem mem_dedupFirstAux (l : List Tag) (seen : List Tag) (a : Tag) :
    a ∈ dedupFirstAux seen l ↔ a ∈ l ∧ a ∉ seen := by
  induction l generalizing seen with
  | nil => simp [dedupFirstAux]
  | cons t ts ih =>
      rw [dedupFirstAux]
      by_cases hc : t ∈ seen
      · rw [if_pos (by simp [hc]), ih]
        simp only [List.mem_cons]
        constructor
        · tauto
        · rintro ⟨h | h, hs⟩
          · subst h; exact absurd hc hs
          · tauto
      · rw [if_neg (by simp [hc])]
        by_cases ha : a = t
        · subst ha; simp [hc]
        · simp only [List.mem_cons, ih, List.mem_append, List.mem_singleton]
          tauto

theorem mem_dedupFirst (l : List Tag) (a : Tag) : a ∈ dedupFirst l ↔ a ∈ l := by
  rw [dedupFirst, mem_dedupFirstAux]
  simp

theorem platformExclusions_subset_computedBuildExclude (m : BuildTagsModule)
    (p : Platform) (exc : List Tag) (t : Tag) (ht : t ∈ platformExclusions m p) :
    t ∈ computedBuildExclude m p exc := by
  unfold platformExclusions at ht
  unfold computedBuildExclude
  cases hl : p.isLinux <;> by_cases hd : p.distname ∈ m.redhatDebianDist <;>
    simp [hl, hd, mem_appendMissing] at ht ⊢ <;> tauto

theorem subset_computedBuildExclude (m : BuildTagsModule) (p : Platform)
    (exc : List Tag) (t : Tag) (ht : t ∈ exc) :
    t ∈ computedBuildExclude m p exc := by
  unfold computedBuildExclude
  cases hl : p.isLinux <;> by_cases hd : p.distname ∈ m.redhatDebianDist <;>
    simp [hl, hd, mem_appendMissing] <;> tauto

theorem mem_computedBuildExclude (m : BuildTagsModule) (p : Platform)
    (exc : List Tag) (t : Tag) (ht : t ∈ computedBuildExclude m p exc) :
    t ∈ exc ∨ t ∈ m.linuxOnlyTags ∨ t ∈ m.redhatDebianOnlyTags := by
  unfold computedBuildExclude at ht
  cases hl : p.isLinux <;> by_cases hd : p.distname ∈ m.redhatDebianDist <;>
    simp [hl, hd, mem_appendMissing] at ht <;> tauto

/-- Claim C2: with the minimal profile (`puppy`) requested, tag resolution
yields exactly `MinimalTagSet` minus the platform exclusions for the given
platform, and the result is independent of the include and exclude lists —
the minimal profile unconditionally overrides user include/exclude
(`tasks/agent.py` lines 124-126 ignore both lists in the puppy branch). -/
theorem puppy_overrides_user_tag_selection (m : BuildTagsModule) (p : Platform)
    (inc₁ exc₁ inc₂ exc₂ : Option (List Tag)) :
    resolveTags m p inc₁ exc₁ true =
        Except.ok (MinimalTagSet.filter (fun t => !((platformExclusions m p).contains t))) ∧
      resolveTags m p inc₁ exc₁ true = resolveTags m p inc₂ exc₂ true :=
  ⟨rfl, rfl⟩

/-- Claim C3: whenever tag resolution succeeds, the resolved tag set contains
no tag from the platform exclusion set of the host (Linux-only tags on a
non-Linux host, distribution-restricted tags on a non-whitelisted
distribution), even when such a tag was explicitly included or came from the
default set — the platform constraints are appended to the exclude list and
therefore take final precedence. -/
theorem resolved_excludes_platform_restricted (m : BuildTagsModule) (p : Platform)
    (buildInc buildExc : Option (List Tag)) (puppy : Bool) (ts : List Tag)
    (hok : resolveTags m p buildInc buildExc puppy = Except.ok ts)
    (t : Tag) (ht : t ∈ platformExclusions m p) :
    t ∉ ts := by
  intro hmem
  unfold resolveTags at hok
  cases puppy with
  | true =>
      simp only [if_true] at hok
      rw [Except.ok.injEq] at hok
      subst hok
      rw [get_default_build_tags_puppy, List.mem_filter] at hmem
      have := hmem.2
      simp at this
      exact this ht
  | false =>
      simp only [Bool.false_eq_true, if_false] at hok
      unfold get_build_tags at hok
      by_cases hv : ((buildInc.getD DEFAULT_BUILD_TAGS) ++
          computedBuildExclude m p (buildExc.getD [])).all (fun t => m.allTags.contains t) = true
      · rw [if_pos hv, Except.ok.injEq] at hok
        subst hok
        rw [mem_dedupFirst, List.mem_filter] at hmem
        have h2 := hmem.2
        simp at h2
        exact h2 (platformExclusions_subset_computedBuildExclude m p _ t ht)
      · rw [if_neg hv] at hok
        exact Except.noConfusion hok

/-- Witness for `resolved_excludes_platform_restricted`: on a Windows host,
resolving with the explicit include list `[docker, systemd]` succeeds with
`[docker]`, and the Linux-only tag `systemd` — though explicitly included —
is not in the result. -/
theorem resolved_excludes_platform_restricted_witness :
    "systemd" ∉ (["docker"] : List Tag) :=
  resolved_excludes_platform_restricted demoModule winPlatform
    (some ["docker", "systemd"]) none false ["docker"] (by decide) "systemd" (by decide)

/-- Claim C6: on a non-Linux host, with any user include/exclude lists that
name only catalog tags (and a catalog that knows its own exclusion groups),
resolution succeeds — platform filtering raises no `ConfigurationError`, it
silently removes every Linux-only tag from the result even when the tag was
explicitly included or came from the default set; the distribution name may
be anything, including empty (undetected), which merely counts as not
whitelisted. -/
theorem platform_filtering_silent_on_nonprimary (m : BuildTagsModule) (p : Platform)
    (buildInc buildExc : Option (List Tag))
    (hnl : p.isLinux = false)
    (hv : ((buildInc.getD DEFAULT_BUILD_TAGS) ++ buildExc.getD []).all
        (fun t => m.allTags.contains t) = true)
    (hwf : (m.linuxOnlyTags ++ m.redhatDebianOnlyTags).all
        (fun t => m.allTags.contains t) = true) :
    ∃ ts, resolveTags m p buildInc buildExc false = Except.ok ts ∧
      ∀ t ∈ m.linuxOnlyTags, t ∉ ts := by
  have hv' : ((buildInc.getD DEFAULT_BUILD_TAGS) ++
      computedBuildExclude m p (buildExc.getD [])).all
        (fun t => m.allTags.contains t) = true := by
    rw [List.all_eq_true] at hv hwf ⊢
    intro x hx
    rcases List.mem_append.mp hx with hx | hx
    · exact hv x (List.mem_append_left _ hx)
    · rcases mem_computedBuildExclude m p _ x hx with h | h | h
      · exact hv x (List.mem_append_right _ h)
      · exact hwf x (List.mem_append_left _ h)
      · exact hwf x (List.mem_append_right _ h)
  have h0 : resolveTags m p buildInc buildExc false =
      get_build_tags m (buildInc.getD DEFAULT_BUILD_TAGS)
        (computedBuildExclude m p (buildExc.getD [])) := rfl
  refine ⟨dedupFirst ((buildInc.getD DEFAULT_BUILD_TAGS).filter
      (fun t => !((computedBuildExclude m p (buildExc.getD [])).contains t))), ?_, ?_⟩
  · rw [h0, get_build_tags, if_pos hv']
  · intro t ht hmem
    rw [mem_dedupFirst, List.mem_filter] at hmem
    have h2 := hmem.2
    simp at h2
    apply h2
    apply platformExclusions_subset_computedBuildExclude
    unfold platformExclusions
    rw [hnl]
    simp only [Bool.false_eq_true, if_false]
    exact List.mem_append_left _ ht

/-- Witness for `platform_filtering_silent_on_nonprimary`: on a Windows host
with the default include list (which contains the Linux-only tags `systemd`
and `netcgo`), resolution succeeds and the result contains no Linux-only
tag. -/
theorem platform_filtering_silent_on_nonprimary_witness :
    ∃ ts, resolveTags demoModule winPlatform none none false = Except.ok ts ∧
      ∀ t ∈ demoModule.linuxOnlyTags, t ∉ ts :=
  platform_filtering_silent_on_nonprimary demoModule winPlatform none none
    (by decide) (by decide) (by decide)

/-- Claim C4 (amended): when the minimal profile is *not* requested and the
include or exclude list contains a tag unknown to the tag catalog, the build
fails with `ConfigurationError` at tag resolution — before the compile step,
before the configuration-template generation, and before any staging
filesystem operation, so nothing is built or staged.  (Under the minimal
profile the user lists are ignored unvalidated; see the counterexample.) -/
theorem unknown_tag_fails_before_build_and_staging (m : BuildTagsModule) (p : Platform)
    (inc exc : List Tag) (development skip_assets : Bool)
    (hbad : ((inc ++ exc).all (fun t => m.allTags.contains t)) = false) :
    (build m p (some inc) (some exc) false development skip_assets).1 =
        Except.error ConfigurationError.unknownTag ∧
      stageOps (build m p (some inc) (some exc) false development skip_assets).2 = [] ∧
      Effect.goBuild ∉ (build m p (some inc) (some exc) false development skip_assets).2 ∧
      Effect.goGenerate ∉ (build m p (some inc) (some exc) false development skip_assets).2 := by
  have hbad' : ((inc ++ computedBuildExclude m p exc).all
      (fun t => m.allTags.contains t)) = false := by
    rw [List.all_eq_false] at hbad ⊢
    obtain ⟨x, hx, hcx⟩ := hbad
    rcases List.mem_append.mp hx with hx | hx
    · exact ⟨x, List.mem_append_left _ hx, hcx⟩
    · exact ⟨x, List.mem_append_right _ (subset_computedBuildExclude m p exc x hx), hcx⟩
  have hres : resolveTags m p (some inc) (some exc) false =
      Except.error ConfigurationError.unknownTag := by
    have h0 : resolveTags m p (some inc) (some exc) false =
        get_build_tags m inc (computedBuildExclude m p exc) := rfl
    rw [h0, get_build_tags, if_neg (by rw [hbad']; exact Bool.false_ne_true)]
  refine ⟨?_, ?_, ?_, ?_⟩ <;>
    by_cases hw : p.sysPlatform == "win32" <;>
      simp [build, hres, hw, stageOps]

/-- Witness for `unknown_tag_fails_before_build_and_staging`: a non-minimal
build with the unknown tag `nosuchtag` in the include list errors out with no
compile, no template generation, and no staging operation. -/
theorem unknown_tag_fails_before_build_and_staging_witness :
    (build demoModule linuxPlatform (some ["nosuchtag"]) (some []) false true false).1 =
        Except.error ConfigurationError.unknownTag ∧
      stageOps (build demoModule linuxPlatform (some ["nosuchtag"]) (some []) false true false).2 = [] ∧
      Effect.goBuild ∉ (build demoModule linuxPlatform (some ["nosuchtag"]) (some []) false true false).2 ∧
      Effect.goGenerate ∉ (build demoModule linuxPlatform (some ["nosuchtag"]) (some []) false true false).2 :=
  unknown_tag_fails_before_build_and_staging demoModule linuxPlatform
    ["nosuchtag"] [] true false (by decide)

/-- Claim C4 (counterexample): with the minimal profile (`puppy`) requested, an
unknown tag in the include list does *not* make resolution fail with
`ConfigurationError`: the puppy branch of `build` ignores the include and
exclude lists without validating them, resolution succeeds, and staging
operations are performed. -/
theorem unknown_tag_ignored_under_puppy :
    (build demoModule linuxPlatform (some ["nosuchtag"]) none true true false).1 =
        Except.ok MinimalTagSet ∧
      stageOps (build demoModule linuxPlatform (some ["nosuchtag"]) none true true false).2 ≠
        [] := by
  refine ⟨by decide, by decide⟩
